import Mathlib

/-!
Shallow embedding of the veilid_duplex rendezvous-and-routing core.

Bytes are modelled as `List Nat` with entries `< 256`.  Overlay collaborators
(route import, `app_call`, DHT reads, serde serialization of the payload type)
are abstracted as function parameters, exactly at the points where the source
calls into `veilid_core`, `serde_json` or the `base64` crate; the control flow
around them is translated line by line from `src/veilid.rs` and `src/utils.rs`.
-/

namespace VeilidDuplex

/-! ### base64 STANDARD_NO_PAD (the `base64` crate engine used by the repo) -/

/-- ASCII code of the standard-alphabet base64 digit for a 6-bit value. -/
def b64char (n : Nat) : Nat :=
  if n < 26 then 65 + n
  else if n < 52 then 97 + (n - 26)
  else if n < 62 then 48 + (n - 52)
  else if n = 62 then 43
  else 47

/-- Inverse of `b64char` on valid base64 digit codes; `none` elsewhere. -/
def b64charInv (c : Nat) : Option Nat :=
  if 65 ≤ c ∧ c ≤ 90 then some (c - 65)
  else if 97 ≤ c ∧ c ≤ 122 then some (c - 97 + 26)
  else if 48 ≤ c ∧ c ≤ 57 then some (c - 48 + 52)
  else if c = 43 then some 62
  else if c = 47 then some 63
  else none

/-- Embeds `general_purpose::STANDARD_NO_PAD.encode`, bytes to ASCII codes. -/
def b64encode : List Nat → List Nat
  | [] => []
  | [a] => [b64char (a / 4), b64char (a % 4 * 16)]
  | [a, b] => [b64char (a / 4), b64char (a % 4 * 16 + b / 16), b64char (b % 16 * 4)]
  | a :: b :: c :: rest =>
    b64char (a / 4) :: b64char (a % 4 * 16 + b / 16) ::
      b64char (b % 16 * 4 + c / 64) :: b64char (c % 64) :: b64encode rest

/-- Embeds `general_purpose::STANDARD_NO_PAD.decode`, ASCII codes to bytes; rejects
bad lengths, non-alphabet characters and nonzero trailing bits. -/
def b64decode : List Nat → Option (List Nat)
  | [] => some []
  | [_] => none
  | [c1, c2] =>
    match b64charInv c1, b64charInv c2 with
    | some x, some y => if y % 16 = 0 then some [x * 4 + y / 16] else none
    | _, _ => none
  | [c1, c2, c3] =>
    match b64charInv c1, b64charInv c2, b64charInv c3 with
    | some x, some y, some z =>
      if z % 4 = 0 then some [x * 4 + y / 16, y % 16 * 16 + z / 4] else none
    | _, _, _ => none
  | c1 :: c2 :: c3 :: c4 :: rest =>
    match b64charInv c1, b64charInv c2, b64charInv c3, b64charInv c4, b64decode rest with
    | some x, some y, some z, some w, some tail =>
      some ((x * 4 + y / 16) :: (y % 16 * 16 + z / 4) :: (z % 4 * 64 + w) :: tail)
    | _, _, _, _, _ => none

/-! ### `AppMessage` (src/veilid.rs lines 27-62) -/

/-- Struct `AppMessage<T>` with fields `data`, `their_route`, `our_route`:
the wire envelope. -/
structure AppMessage (T : Type) where
  data : T
  their_route : List Nat
  our_route : List Nat
deriving DecidableEq

/-- Method `AppMessage::swap_routes` (src/veilid.rs lines 36-38): `mem::swap` of the
two route fields, written functionally. -/
def AppMessage.swap_routes {T : Type} (m : AppMessage T) : AppMessage T :=
  { m with their_route := m.our_route, our_route := m.their_route }

inductive SendErr
  | payloadTooLarge
  | importFailed
  | callFailed
deriving DecidableEq

/-- Outcome of `AppMessage::send`: the returned value together with the number
of overlay operations (`import_remote_private_route`, `app_call`) invoked. -/
structure SendOut where
  result : Except SendErr (List Nat)
  overlayOps : Nat

/-- Method `AppMessage::send` (src/veilid.rs lines 40-61).  `ser` stands for
`serde_json::to_vec`, `importRoute` for `api.import_remote_private_route`
(the imported route id is a `Nat`), `app_call` for
`routing_context.app_call`; `none` models an `Err` return of the overlay. -/
def AppMessage.send {T : Type} (ser : AppMessage T → List Nat)
    (importRoute : List Nat → Option Nat)
    (app_call : Nat → List Nat → Option (List Nat)) (m : AppMessage T) : SendOut :=
  let app_message_blob := ser m
  if app_message_blob.length > 32 * 1024 then
    { result := .error .payloadTooLarge, overlayOps := 0 }
  else
    match importRoute m.their_route with
    | none => { result := .error .importFailed, overlayOps := 1 }
    | some route =>
      match app_call route app_message_blob with
      | none => { result := .error .callFailed, overlayOps := 2 }
      | some reply => { result := .ok reply, overlayOps := 2 }

/-! ### Wire shape of the serde derive on `AppMessage` (src/veilid.rs lines 27-33) -/

/-- JSON values, the codomain of `serde_json` serialization. -/
inductive Json where
  | num (n : Nat)
  | str (s : String)
  | arr (elems : List Json)
  | obj (fields : List (String × Json))

/-- The JSON object produced by the derived `Serialize` impl of `AppMessage`:
field order and names follow the struct declaration; `Vec<u8>` serializes as
an array of numbers.  `encData` is the application type's own serializer. -/
def appMessageToJson {T : Type} (encData : T → Json) (m : AppMessage T) : Json :=
  .obj [("data", encData m.data),
        ("their_route", .arr (m.their_route.map .num)),
        ("our_route", .arr (m.our_route.map .num))]

/-- Top-level field names of a JSON object. -/
def Json.keys : Json → List String
  | .obj fields => fields.map Prod.fst
  | _ => []

/-! ### DHT pin helpers (src/utils.rs lines 299-340, src/veilid.rs lines 218-260) -/

/-- The overlay's DHT, record key and subkey to stored bytes. -/
def DhtState : Type := Nat → Nat → Option (List Nat)

def emptyDht : DhtState := fun _ _ => none

/-- Operation `routing_context.set_dht_value(key, subkey, v)`. -/
def setDhtValue (dht : DhtState) (key subkey : Nat) (v : List Nat) : DhtState :=
  fun k s => if k = key ∧ s = subkey then some v else dht k s

/-- Function `create_service_route_pin` (src/utils.rs lines 299-326): creates the
record (its fresh key is the parameter `newKey`), writes `route` at subkey 0,
closes, returns the key. -/
def create_service_route_pin (dht : DhtState) (newKey : Nat) (route : List Nat) :
    DhtState × Nat :=
  (setDhtValue dht newKey 0 route, newKey)

/-- Function `update_service_route_pin` (src/utils.rs lines 328-340): opens the record
with the owner keypair and writes `route` at subkey 1, closes. -/
def update_service_route_pin (dht : DhtState) (route : List Nat) (dht_key : Nat) :
    DhtState :=
  setDhtValue dht dht_key 1 route

/-- Enum `veilid_core::Target`. -/
inductive Target
  | privateRoute (key : Nat)
deriving DecidableEq

inductive DhtErr
  | valueNotFound
  | badValue
  | importFailed
deriving DecidableEq

/-- Function `get_service_route_from_dht` (src/utils.rs lines 27-54): opens the peer
record without credentials, reads subkey 1 passing `force_refresh` through,
base64-decodes the value, imports it as a private route, closes; returns the
target and the imported route key.  `importR` stands for
`api.import_remote_private_route`. -/
def get_service_route_from_dht (importR : List Nat → Option Nat) (dht : DhtState)
    (service_key : Nat) ( force_refresh : Bool) : Except DhtErr (Target × Nat) :=
  match dht service_key 1 with
  | none => .error .valueNotFound
  | some dht_val =>
    match b64decode dht_val with
    | none => .error .badValue
    | some their_route_blob =>
      match importR their_route_blob with
      | none => .error .importFailed
      | some their_route => .ok (Target.privateRoute their_route, their_route)

/-- The DHT write performed by `P2PApp::new_host` (src/veilid.rs lines
218-260): the fresh private-route blob is base64-encoded (`STANDARD_NO_PAD`)
and stored at subkey 0 of the freshly created rendezvous record. -/
def new_host_publish (dht : DhtState) (newKey : Nat) (blob : List Nat) : DhtState :=
  (create_service_route_pin dht newKey (b64encode blob)).1

/-! ### The receive dispatcher `P2PApp::network_loop` (src/veilid.rs lines 346-426) -/

/-- The `VeilidUpdate` variants the dispatcher distinguishes; route keys are
opaque `Nat` identifiers, payloads are byte lists. -/
inductive Update (T : Type)
  | appCall (id : Nat) (message : List Nat)
  | routeChange (dead_routes : List Nat) (dead_remote_routes : List Nat)
  | other

/-- The mutable `P2PApp` fields the dispatcher reads and writes, plus the
value at subkey 0 of the node's own rendezvous record.  No statement in
`network_loop` (src/veilid.rs lines 346-426) calls `set_dht_value` or
`update_service_route_pin`, so the dispatcher carries `ownDhtValue`
unchanged. -/
structure NodeState (T : Type) where
  our_route : List Nat
  their_route : Option (List Nat)
  service_key : Nat
  ownDhtValue : List Nat
deriving DecidableEq

/-- State of a `P2PApp` right after `new_host` (src/veilid.rs lines 218-260):
`our_route` holds the fresh blob, no peer route yet, and the rendezvous
record holds the base64-encoded blob at subkey 0. -/
def newHostState (T : Type) (service_key : Nat) (blob : List Nat) : NodeState T :=
  { our_route := blob, their_route := none, service_key := service_key,
    ownDhtValue := b64encode blob }

/-- External collaborators of the dispatcher: `decode` is
`serde_json::from_slice::<AppMessage<T>>`, `importRoute` is
`api.import_remote_private_route`, `getServiceRoute` is
`P2PApp::get_service_route` (DHT read plus fresh private route, returning
`(our_route_blob, their_route_blob)`), `handler` is the `on_remote_call`
callback. -/
structure Env (T : Type) where
  decode : List Nat → Option (AppMessage T)
  importRoute : List Nat → Option Nat
  getServiceRoute : Nat → Option (List Nat × List Nat)
  handler : T → T

inductive LoopErr
  | decodeFailed
  | importFailed
  | resolveFailed
deriving DecidableEq

/-- Observable actions of one dispatcher iteration: the data values the
`on_remote_call` handler was invoked on, and the reply tasks spawned
(call id paired with the handler result placed in the reply message). -/
structure LoopLog (T : Type) where
  handlerIn : List T
  spawns : List (Nat × T)
deriving DecidableEq

def LoopLog.append {T : Type} (l1 l2 : LoopLog T) : LoopLog T :=
  ⟨l1.handlerIn ++ l2.handlerIn, l1.spawns ++ l2.spawns⟩

/-- The `for route in change.dead_remote_routes` loop (src/veilid.rs lines
408-421): `theirKey` is the key imported from `their_route` before the loop;
on a match the service route is re-resolved and both route fields replaced;
`get_service_route` failure propagates with `?`. -/
def processDeadRemoteRoutes {T : Type} (env : Env T) (theirKey : Nat)
    (st : NodeState T) : List Nat → Except LoopErr (NodeState T)
  | [] => .ok st
  | route :: rest =>
    if theirKey = route then
      match env.getServiceRoute st.service_key with
      | none => .error .resolveFailed
      | some (our_route, their_route) =>
        processDeadRemoteRoutes env theirKey
          { st with our_route := our_route, their_route := some their_route } rest
    else
      processDeadRemoteRoutes env theirKey st rest

/-- One iteration of the dispatcher `match` (src/veilid.rs lines 362-424).
`AppCall`: decode with `?` (failure exits the loop), record the peer's
`our_route` as `their_route`, run the handler inline, spawn the reply task.
`RouteChange`: skip when `their_route` is unset, import it with `?`, then
scan `dead_remote_routes`; `dead_routes` is never read.  Other updates are
ignored. -/
def step {T : Type} (env : Env T) (st : NodeState T) :
    Update T → Except LoopErr (NodeState T × LoopLog T)
  | .appCall id message =>
    match env.decode message with
    | none => .error .decodeFailed
    | some app_message =>
      let st1 := { st with their_route := some app_message.our_route }
      .ok (st1, ⟨[app_message.data], [(id, env.handler app_message.data)]⟩)
  | .routeChange _dead_routes dead_remote_routes =>
    match st.their_route with
    | none => .ok (st, ⟨[], []⟩)
    | some their_route_blob =>
      match env.importRoute their_route_blob with
      | none => .error .importFailed
      | some theirKey =>
        match processDeadRemoteRoutes env theirKey st dead_remote_routes with
        | .error e => .error e
        | .ok st1 => .ok (st1, ⟨[], []⟩)
  | .other => .ok (st, ⟨[], []⟩)

/-- Result of consuming a finite prefix of the update stream: the state when
the loop stopped, what it did, and the error it returned (if any). -/
structure RunResult (T : Type) where
  state : NodeState T
  log : LoopLog T
  err : Option LoopErr
deriving DecidableEq

/-- Runs `network_loop` over a finite list of delivered updates: processes them in
order and stops at the first error (`?` makes the function return it). -/
def networkLoop {T : Type} (env : Env T) (st : NodeState T) (log : LoopLog T) :
    List (Update T) → RunResult T
  | [] => ⟨st, log, none⟩
  | u :: rest =>
    match step env st u with
    | .error e => ⟨st, log, some e⟩
    | .ok (st1, out) => networkLoop env st1 (log.append out) rest

/-! ### The spawned reply task (src/veilid.rs lines 376-395 and 328-344) -/

/-- One attempt of the spawned task is one `app_call_host_reply`: first
`api.app_call_reply(id, b"ACK")`, then `app_message.send`.  The oracle gives,
for attempt `i`, whether each of the two overlay calls succeeds. -/
def attemptOk (oracle : Nat → Bool × Bool) (i : Nat) : Bool :=
  (oracle i).1 && (oracle i).2

/-- The `loop` of the spawned task (src/veilid.rs lines 377-394), run for at
most `fuel` attempts starting at attempt `i`: it breaks at the first attempt
whose two calls both succeed and retries otherwise, with no attempt cap and
no sleep.  Returns the index of the breaking attempt. -/
def replyLoopFuel (oracle : Nat → Bool × Bool) : Nat → Nat → Option Nat
  | 0, _ => none
  | fuel + 1, i => if attemptOk oracle i then some i else replyLoopFuel oracle fuel (i + 1)

/-- Number of ACKs delivered to the peer over the first `fuel` attempts: an
attempt delivers an ACK exactly when its `app_call_reply` succeeds, and the
task stops retrying after the first fully successful attempt. -/
def replyAcks (oracle : Nat → Bool × Bool) : Nat → Nat → Nat
  | 0, _ => 0
  | fuel + 1, i =>
    (if (oracle i).1 then 1 else 0) +
      (if attemptOk oracle i then 0 else replyAcks oracle fuel (i + 1))

/-! ### Concrete instances used for counterexamples and witnesses -/

/-- An environment over `T = Nat` whose decoder accepts exactly the payload
`[7]` (as the envelope `data 1, their_route [3], our_route [4]`). -/
def envA : Env Nat :=
  { decode := fun b => if b = [7] then some ⟨1, [3], [4]⟩ else none,
    importRoute := fun _ => none,
    getServiceRoute := fun _ => none,
    handler := fun n => n + 1 }

/-- An environment over `T = Nat` whose decoder accepts exactly `[7]` (as
`data 1, their_route [9], our_route [2]`), imports the blob `[2]` as route
key `5`, and resolves the service route to `(our [9], their [4])`. -/
def envB : Env Nat :=
  { decode := fun b => if b = [7] then some ⟨1, [9], [2]⟩ else none,
    importRoute := fun b => if b = [2] then some 5 else none,
    getServiceRoute := fun _ => some ([9], [4]),
    handler := fun n => n }

/-- A node state with a cached peer route blob `[2]`, as reached after
`new_host` with route blob `[1]` followed by one decoded `AppCall`. -/
def stB : NodeState Nat :=
  { our_route := [1], their_route := some [2], service_key := 0,
    ownDhtValue := b64encode [1] }

/-- Reply oracle under which every overlay call fails. -/
def allFailOracle : Nat → Bool × Bool := fun _ => (false, false)

/-- Reply oracle under which every overlay call succeeds. -/
def okOracle : Nat → Bool × Bool := fun _ => (true, true)

/-- Reply oracle whose attempts fail until attempt 2, then succeed. -/
def lateOracle : Nat → Bool × Bool := fun i => (decide (2 ≤ i), decide (2 ≤ i))

/-! ## Theorems

### Codec helper lemmas -/

theorem b64charInv_b64char : ∀ n, n < 64 → b64charInv (b64char n) = some n := by decide

theorem unpack_div (k x y : Nat) (hk : 0 < k) (hy : y < k) : (x * k + y) / k = x := by
  rw [Nat.mul_comm, Nat.mul_add_div hk, Nat.div_eq_of_lt hy]
  omega

theorem unpack_mod (k x y : Nat) (hy : y < k) : (x * k + y) % k = y := by
  rw [Nat.mul_comm, Nat.mul_add_mod, Nat.mod_eq_of_lt hy]

/-- Decoding is a left inverse of encoding on byte lists. -/
theorem b64decode_b64encode : ∀ (l : List Nat), (∀ b ∈ l, b < 256) →
    b64decode (b64encode l) = some l
  | [], _ => rfl
  | [a], h => by
    have ha : a < 256 := h a (by simp)
    have h1 : b64charInv (b64char (a / 4)) = some (a / 4) :=
      b64charInv_b64char _ (by omega)
    have h2 : b64charInv (b64char (a % 4 * 16)) = some (a % 4 * 16) :=
      b64charInv_b64char _ (by omega)
    have hm : a % 4 * 16 % 16 = 0 := by omega
    have e1 : a % 4 * 16 / 16 = a % 4 := Nat.mul_div_cancel _ (by norm_num)
    simp only [b64encode, b64decode, h1, h2, hm, e1]
    rw [if_pos trivial]
    have g1 : a / 4 * 4 + a % 4 = a := by omega
    rw [g1]
  | [a, b], h => by
    have ha : a < 256 := h a (by simp)
    have hb : b < 256 := h b (by simp)
    have h1 : b64charInv (b64char (a / 4)) = some (a / 4) :=
      b64charInv_b64char _ (by omega)
    have h2 : b64charInv (b64char (a % 4 * 16 + b / 16)) = some (a % 4 * 16 + b / 16) :=
      b64charInv_b64char _ (by omega)
    have h3 : b64charInv (b64char (b % 16 * 4)) = some (b % 16 * 4) :=
      b64charInv_b64char _ (by omega)
    have hm : b % 16 * 4 % 4 = 0 := by omega
    have e1 : (a % 4 * 16 + b / 16) / 16 = a % 4 := unpack_div 16 _ _ (by omega) (by omega)
    have e2 : (a % 4 * 16 + b / 16) % 16 = b / 16 := unpack_mod 16 _ _ (by omega)
    have e3 : b % 16 * 4 / 4 = b % 16 := Nat.mul_div_cancel _ (by norm_num)
    simp only [b64encode, b64decode, h1, h2, h3, hm, e1, e2, e3]
    rw [if_pos trivial]
    have g1 : a / 4 * 4 + a % 4 = a := by omega
    have g2 : b / 16 * 16 + b % 16 = b := by omega
    rw [g1, g2]
  | a :: b :: c :: rest, h => by
    have ha : a < 256 := h a (by simp)
    have hb : b < 256 := h b (by simp)
    have hc : c < 256 := h c (by simp)
    have hrest : ∀ x ∈ rest, x < 256 := fun x hx => h x (by simp [hx])
    have ih := b64decode_b64encode rest hrest
    have h1 : b64charInv (b64char (a / 4)) = some (a / 4) :=
      b64charInv_b64char _ (by omega)
    have h2 : b64charInv (b64char (a % 4 * 16 + b / 16)) = some (a % 4 * 16 + b / 16) :=
      b64charInv_b64char _ (by omega)
    have h3 : b64charInv (b64char (b % 16 * 4 + c / 64)) = some (b % 16 * 4 + c / 64) :=
      b64charInv_b64char _ (by omega)
    have h4 : b64charInv (b64char (c % 64)) = some (c % 64) :=
      b64charInv_b64char _ (by omega)
    have e1 : (a % 4 * 16 + b / 16) / 16 = a % 4 := unpack_div 16 _ _ (by omega) (by omega)
    have e2 : (a % 4 * 16 + b / 16) % 16 = b / 16 := unpack_mod 16 _ _ (by omega)
    have e3 : (b % 16 * 4 + c / 64) / 4 = b % 16 := unpack_div 4 _ _ (by omega) (by omega)
    have e4 : (b % 16 * 4 + c / 64) % 4 = c / 64 := unpack_mod 4 _ _ (by omega)
    simp only [b64encode, b64decode, h1, h2, h3, h4, ih, e1, e2, e3, e4]
    have g1 : a / 4 * 4 + a % 4 = a := by omega
    have g2 : b / 16 * 16 + b % 16 = b := by omega
    have g3 : c / 64 * 64 + c % 64 = c := by omega
    rw [g1, g2, g3]


/-! ### Dispatcher helper lemmas -/

theorem processDeadRemoteRoutes_resolves {T : Type} (env : Env T) (theirKey : Nat)
    (our their : List Nat) :
    ∀ (l : List Nat) (st : NodeState T),
      env.getServiceRoute st.service_key = some (our, their) →
      processDeadRemoteRoutes env theirKey st l =
        .ok (if theirKey ∈ l then
               { st with our_route := our, their_route := some their }
             else st) := by
  intro l
  induction l with
  | nil => intro st _; simp [processDeadRemoteRoutes]
  | cons r rest ih =>
    intro st hg
    simp only [processDeadRemoteRoutes]
    by_cases hc : theirKey = r
    · rw [if_pos hc]
      simp only [hg]
      have hg1 : env.getServiceRoute
          ({ st with our_route := our, their_route := some their } : NodeState T).service_key
            = some (our, their) := hg
      rw [ih _ hg1]
      have hmem : theirKey ∈ r :: rest := by rw [hc]; exact List.mem_cons_self r rest
      rw [if_pos hmem]
      by_cases h2 : theirKey ∈ rest
      · rw [if_pos h2]
      · rw [if_neg h2]
    · rw [if_neg hc, ih _ hg]
      by_cases h2 : theirKey ∈ rest
      · rw [if_pos h2, if_pos (List.mem_cons_of_mem r h2)]
      · rw [if_neg h2, if_neg (by simp [List.mem_cons, hc, h2])]

theorem processDeadRemoteRoutes_ownDhtValue {T : Type} (env : Env T) (theirKey : Nat) :
    ∀ (l : List Nat) (st st1 : NodeState T),
      processDeadRemoteRoutes env theirKey st l = .ok st1 →
      st1.ownDhtValue = st.ownDhtValue := by
  intro l
  induction l with
  | nil =>
    intro st st1 h
    simp only [processDeadRemoteRoutes, Except.ok.injEq] at h
    rw [← h]
  | cons r rest ih =>
    intro st st1 h
    simp only [processDeadRemoteRoutes] at h
    by_cases hc : theirKey = r
    · rw [if_pos hc] at h
      cases hg : env.getServiceRoute st.service_key with
      | none => simp only [hg] at h; exact Except.noConfusion h
      | some pr =>
        obtain ⟨a, b⟩ := pr
        simp only [hg] at h
        exact ih { st with our_route := a, their_route := some b } st1 h
    · rw [if_neg hc] at h
      exact ih _ _ h

theorem step_ownDhtValue {T : Type} (env : Env T) (st : NodeState T) (u : Update T)
    (st1 : NodeState T) (out : LoopLog T) (h : step env st u = .ok (st1, out)) :
    st1.ownDhtValue = st.ownDhtValue := by
  cases u with
  | appCall id p =>
    cases hd : env.decode p with
    | none => simp only [step, hd] at h; exact Except.noConfusion h
    | some m =>
      simp only [step, hd, Except.ok.injEq, Prod.mk.injEq] at h
      rw [← h.1]
  | routeChange dr drr =>
    cases ht : st.their_route with
    | none =>
      simp only [step, ht, Except.ok.injEq, Prod.mk.injEq] at h
      rw [← h.1]
    | some blob =>
      cases hi : env.importRoute blob with
      | none => simp only [step, ht, hi] at h; exact Except.noConfusion h
      | some theirKey =>
        cases hp : processDeadRemoteRoutes env theirKey st drr with
        | error e => simp only [step, ht, hi, hp] at h; exact Except.noConfusion h
        | ok st2 =>
          simp only [step, ht, hi, hp, Except.ok.injEq, Prod.mk.injEq] at h
          rw [← h.1]
          exact processDeadRemoteRoutes_ownDhtValue env theirKey drr st st2 hp
  | other =>
    simp only [step, Except.ok.injEq, Prod.mk.injEq] at h
    rw [← h.1]

theorem networkLoop_ownDhtValue {T : Type} (env : Env T) :
    ∀ (updates : List (Update T)) (st : NodeState T) (log : LoopLog T),
      (networkLoop env st log updates).state.ownDhtValue = st.ownDhtValue := by
  intro updates
  induction updates with
  | nil => intro st log; rfl
  | cons u rest ih =>
    intro st log
    rw [networkLoop]
    cases hs : step env st u with
    | error e => rfl
    | ok p =>
      obtain ⟨st1, out⟩ := p
      have h1 := step_ownDhtValue env st u st1 out hs
      simpa [ih st1 (log.append out)] using h1

/-! ### Reply-loop helper lemmas -/

theorem replyLoopFuel_allFail (fuel i : Nat) : replyLoopFuel allFailOracle fuel i = none := by
  induction fuel generalizing i with
  | zero => rfl
  | succ n ih => simp [replyLoopFuel, attemptOk, allFailOracle, ih]

theorem replyLoopFuel_finds (oracle : Nat → Bool × Bool) :
    ∀ (fuel i k : Nat), i ≤ k → k < i + fuel → attemptOk oracle k = true →
      (∀ j, i ≤ j → j < k → attemptOk oracle j = false) →
      replyLoopFuel oracle fuel i = some k := by
  intro fuel
  induction fuel with
  | zero => intro i k h1 h2 _ _; omega
  | succ n ih =>
    intro i k h1 h2 hk hbef
    rcases Nat.eq_or_lt_of_le h1 with heq | hlt
    · subst heq
      simp [replyLoopFuel, hk]
    · have hi : attemptOk oracle i = false := hbef i le_rfl hlt
      simp only [replyLoopFuel, hi, Bool.false_eq_true, if_false]
      exact ih (i + 1) k hlt (by omega) hk (fun j hj1 hj2 => hbef j (by omega) hj2)

/-! ### Claim theorems -/

/-- C10: `swap_routes` exchanges exactly the `their_route` and `our_route`
fields, leaves `data` unchanged, and applying it twice restores the original
message (it is an involution). -/
theorem swap_routes_exchanges_and_involutive {T : Type} (m : AppMessage T) :
    m.swap_routes.data = m.data ∧
    m.swap_routes.their_route = m.our_route ∧
    m.swap_routes.our_route = m.their_route ∧
    m.swap_routes.swap_routes = m :=
  ⟨rfl, rfl, rfl, rfl⟩

/-- C3: when the serialized envelope exceeds 32 KiB, `send` returns the
size error having performed no overlay operation; when it is at most
32 * 1024 bytes the size check passes and the overlay is invoked (route
import, then `app_call`). -/
theorem send_size_enforcement {T : Type} (ser : AppMessage T → List Nat)
    (importRoute : List Nat → Option Nat)
    (app_call : Nat → List Nat → Option (List Nat)) (m : AppMessage T) :
    ((ser m).length > 32 * 1024 →
      AppMessage.send ser importRoute app_call m =
        { result := .error .payloadTooLarge, overlayOps := 0 }) ∧
    ((ser m).length ≤ 32 * 1024 →
      1 ≤ (AppMessage.send ser importRoute app_call m).overlayOps) := by
  constructor
  · intro h
    simp only [AppMessage.send]
    rw [if_pos h]
  · intro h
    simp only [AppMessage.send]
    rw [if_neg (by omega)]
    cases h2 : importRoute m.their_route with
    | none => simp only [h2]; decide
    | some route =>
      cases h3 : app_call route (ser m) with
      | none => simp only [h2, h3]; decide
      | some reply => simp only [h2, h3]; decide

/-- Witness for C3: a 32769-byte blob is rejected with no overlay call; a
1-byte blob reaches the overlay. -/
theorem send_size_enforcement_witness :
    AppMessage.send (fun (_ : AppMessage Unit) => List.replicate (32 * 1024 + 1) 0)
        (fun _ => none) (fun _ _ => none) ⟨(), [], []⟩ =
      { result := .error .payloadTooLarge, overlayOps := 0 } ∧
    1 ≤ (AppMessage.send (fun (_ : AppMessage Unit) => [1])
        (fun _ => some 0) (fun _ _ => some []) ⟨(), [], []⟩).overlayOps :=
  ⟨(send_size_enforcement _ _ _ _).1 (by
      show (List.replicate (32 * 1024 + 1) (0 : Nat)).length > 32 * 1024
      rw [List.length_replicate]
      omega),
   (send_size_enforcement _ _ _ _).2 (by
      show ([1] : List Nat).length ≤ 32 * 1024
      decide)⟩

/-- C9 counterexample: the serialized envelope has exactly the fields
`data`, `their_route`, `our_route`; it carries no `envelope_id` and no
`origin_dht_key` field, refuting the claimed wire tuple. -/
theorem envelope_no_id_counterexample :
    (appMessageToJson Json.num ⟨0, [], []⟩).keys = ["data", "their_route", "our_route"] ∧
    "envelope_id" ∉ (appMessageToJson Json.num ⟨0, [], []⟩).keys ∧
    "origin_dht_key" ∉ (appMessageToJson Json.num ⟨0, [], []⟩).keys := by
  refine ⟨rfl, ?_, ?_⟩ <;> decide

/-- C9 amended: the serialized envelope encodes exactly the triple
`(data, their_route, our_route)` — its top-level fields are those three, and
(for an injective payload encoder) the JSON object determines the message;
no identifier is generated, serialization being a function of the message
alone. -/
theorem envelope_encodes_triple {T : Type} (encData : T → Json)
    (hinj : ∀ a b, encData a = encData b → a = b) (m1 m2 : AppMessage T) :
    (appMessageToJson encData m1).keys = ["data", "their_route", "our_route"] ∧
    (appMessageToJson encData m1 = appMessageToJson encData m2 → m1 = m2) := by
  refine ⟨rfl, fun h => ?_⟩
  obtain ⟨d1, t1, o1⟩ := m1
  obtain ⟨d2, t2, o2⟩ := m2
  simp only [appMessageToJson, Json.obj.injEq, List.cons.injEq, Prod.mk.injEq,
    Json.arr.injEq, true_and, and_true] at h
  obtain ⟨h1, h2, h3⟩ := h
  have hnum : Function.Injective Json.num := fun _ _ hab => Json.num.inj hab
  have ht : t1 = t2 := List.map_injective_iff.mpr hnum h2
  have ho : o1 = o2 := List.map_injective_iff.mpr hnum h3
  have hd : d1 = d2 := hinj _ _ h1
  rw [hd, ht, ho]

/-- Witness for C9 amended, at the numeric payload encoder. -/
theorem envelope_encodes_triple_witness :
    (appMessageToJson Json.num ⟨5, [1], [2]⟩).keys = ["data", "their_route", "our_route"] ∧
    (⟨5, [1], [2]⟩ : AppMessage Nat) = ⟨5, [1], [2]⟩ :=
  ⟨(envelope_encodes_triple Json.num (fun a b h => Json.num.inj h) ⟨5, [1], [2]⟩ ⟨5, [1], [2]⟩).1,
   (envelope_encodes_triple Json.num (fun a b h => Json.num.inj h) ⟨5, [1], [2]⟩ ⟨5, [1], [2]⟩).2 rfl⟩

/-- C7 counterexample: `update_service_route_pin` writes the route at
subkey 1, not subkey 0 — after updating a fresh record with route `[1]`,
subkey 0 still holds nothing and subkey 1 holds the route. -/
theorem update_writes_subkey_one_counterexample :
    update_service_route_pin emptyDht [1] 0 0 0 = none ∧
    update_service_route_pin emptyDht [1] 0 0 1 = some [1] := by
  constructor <;> rfl

/-- C7 amended: `create_service_route_pin` (publish) writes at subkey 0,
while `update_service_route_pin` writes at subkey 1 and
`get_service_route_from_dht` (resolve) reads subkey 1 (refresh is its
caller-supplied flag); consequently a value written by update — the base64
encoding of a route blob — is exactly what a subsequent resolve reads,
decodes and imports. -/
theorem rendezvous_subkey_usage (dht : DhtState) (key newKey k : Nat)
    (route blob : List Nat) (importR : List Nat → Option Nat) (ff : Bool)
    (hbytes : ∀ b ∈ blob, b < 256) (himp : importR blob = some k) :
    (create_service_route_pin dht newKey route).1 newKey 0 = some route ∧
    update_service_route_pin dht route key key 1 = some route ∧
    get_service_route_from_dht importR (update_service_route_pin dht (b64encode blob) key) key ff
      = .ok (Target.privateRoute k, k) := by
  refine ⟨?_, ?_, ?_⟩
  · simp [create_service_route_pin, setDhtValue]
  · simp [update_service_route_pin, setDhtValue]
  · have hread : update_service_route_pin dht (b64encode blob) key key 1
        = some (b64encode blob) := by
      simp [update_service_route_pin, setDhtValue]
    simp only [get_service_route_from_dht, hread, b64decode_b64encode blob hbytes, himp]

/-- Witness for C7 amended: update with the encoding of `[1, 2]` on key 0,
then resolve returns the imported target 3. -/
theorem rendezvous_subkey_usage_witness :
    (create_service_route_pin emptyDht 2 [9]).1 2 0 = some [9] ∧
    update_service_route_pin emptyDht [9] 0 0 1 = some [9] ∧
    get_service_route_from_dht (fun b => if b = [1, 2] then some 3 else none)
        (update_service_route_pin emptyDht (b64encode [1, 2]) 0) 0 true
      = .ok (Target.privateRoute 3, 3) :=
  rendezvous_subkey_usage emptyDht 0 2 3 [9] [1, 2]
    (fun b => if b = [1, 2] then some 3 else none) true (by decide) (by decide)

/-- C8 counterexample: after the `new_host` publish of route blob `[1, 2]`,
reading subkey 0 returns the base64 encoding `"AQI"` (bytes 65, 81, 73), not
the raw blob — the publish-then-read round trip is not the identity. -/
theorem publish_read_not_raw_counterexample :
    new_host_publish emptyDht 0 [1, 2] 0 0 = some (b64encode [1, 2]) ∧
    new_host_publish emptyDht 0 [1, 2] 0 0 ≠ some [1, 2] := by
  constructor
  · rfl
  · decide

/-- C8 amended: the value stored by `new_host` at subkey 0 of its rendezvous
record is the STANDARD_NO_PAD base64 encoding of the current route blob, and
base64-decoding the stored bytes recovers the blob exactly (the round trip
through encode and decode is the identity). -/
theorem new_host_publish_roundtrip (dht : DhtState) (newKey : Nat) (blob : List Nat)
    (hbytes : ∀ b ∈ blob, b < 256) :
    new_host_publish dht newKey blob newKey 0 = some (b64encode blob) ∧
    b64decode (b64encode blob) = some blob := by
  refine ⟨?_, b64decode_b64encode blob hbytes⟩
  simp [new_host_publish, create_service_route_pin, setDhtValue]

/-- Witness for C8 amended at blob `[1, 2]`. -/
theorem new_host_publish_roundtrip_witness :
    new_host_publish emptyDht 3 [1, 2] 3 0 = some (b64encode [1, 2]) ∧
    b64decode (b64encode [1, 2]) = some [1, 2] :=
  new_host_publish_roundtrip emptyDht 3 [1, 2] (by decide)

/-- C1 counterexample: two `AppCall` deliveries with byte-identical payload
`[7]` invoke the handler twice (values `[1, 1]`), not once; two reply tasks
are spawned, and a reply task whose calls succeed delivers exactly one ACK.
The dispatcher keeps no dedup log. -/
theorem duplicate_delivery_not_deduped_counterexample :
    (networkLoop envA (newHostState Nat 0 [1]) ⟨[], []⟩
        [Update.appCall 10 [7], Update.appCall 11 [7]]).log.handlerIn = [1, 1] ∧
    (networkLoop envA (newHostState Nat 0 [1]) ⟨[], []⟩
        [Update.appCall 10 [7], Update.appCall 11 [7]]).log.spawns = [(10, 2), (11, 2)] ∧
    replyAcks okOracle 1 0 = 1 := by
  refine ⟨?_, ?_, ?_⟩ <;> decide

/-- C1 amended: the dispatcher performs no deduplication — over any run of
decodable `AppCall` deliveries it invokes the user handler once per
delivery (so byte-identical duplicates are each handed to the handler) and
spawns one reply task per delivery, each of which starts by ACKing the
call. -/
theorem handler_once_per_delivery {T : Type} (env : Env T) (st : NodeState T)
    (log : LoopLog T) (updates : List (Update T))
    (h : ∀ u ∈ updates, ∃ id p m, u = Update.appCall id p ∧ env.decode p = some m) :
    (networkLoop env st log updates).err = none ∧
    (networkLoop env st log updates).log.handlerIn.length
      = log.handlerIn.length + updates.length ∧
    (networkLoop env st log updates).log.spawns.length
      = log.spawns.length + updates.length := by
  induction updates generalizing st log with
  | nil => simp [networkLoop]
  | cons u rest ih =>
    obtain ⟨id, p, m, rfl, hdec⟩ := h u (List.mem_cons_self u rest)
    have hrest : ∀ v ∈ rest, ∃ id p m, v = Update.appCall id p ∧ env.decode p = some m :=
      fun v hv => h v (List.mem_cons_of_mem _ hv)
    have hmain := ih { st with their_route := some m.our_route }
      (log.append ⟨[m.data], [(id, env.handler m.data)]⟩) hrest
    simp only [networkLoop, step, hdec]
    refine ⟨hmain.1, ?_, ?_⟩
    · rw [hmain.2.1]
      simp only [LoopLog.append, List.length_append, List.length_cons, List.length_nil]
      omega
    · rw [hmain.2.2]
      simp only [LoopLog.append, List.length_append, List.length_cons, List.length_nil]
      omega

/-- Witness for C1 amended: one decodable delivery, one handler call, one
spawned reply task. -/
theorem handler_once_per_delivery_witness :
    (networkLoop envA (newHostState Nat 0 [1]) ⟨[], []⟩ [Update.appCall 10 [7]]).err = none ∧
    (networkLoop envA (newHostState Nat 0 [1]) ⟨[], []⟩
        [Update.appCall 10 [7]]).log.handlerIn.length = 0 + 1 ∧
    (networkLoop envA (newHostState Nat 0 [1]) ⟨[], []⟩
        [Update.appCall 10 [7]]).log.spawns.length = 0 + 1 :=
  handler_once_per_delivery envA (newHostState Nat 0 [1]) ⟨[], []⟩ [Update.appCall 10 [7]]
    (by
      intro u hu
      simp only [List.mem_singleton] at hu
      subst hu
      exact ⟨10, [7], ⟨1, [3], [4]⟩, rfl, by decide⟩)

/-- C2 counterexample: on an `AppCall` whose payload `[9]` fails decoding,
`network_loop` returns the decode error at once — the call is not ACKed (no
reply task is spawned, the log is empty) and the following decodable update
is never consumed. -/
theorem decode_failure_no_ack_counterexample :
    networkLoop envA (newHostState Nat 0 [1]) ⟨[], []⟩
        [Update.appCall 10 [9], Update.appCall 11 [7]] =
      ⟨newHostState Nat 0 [1], ⟨[], []⟩, some .decodeFailed⟩ := by
  decide

/-- C2 amended: a payload that fails envelope decoding makes the dispatcher
propagate the error (`?` on `serde_json::from_slice`) and exit immediately:
the call is not ACKed, nothing is logged to the run, and no later update is
consumed, whatever the rest of the stream is. -/
theorem decode_failure_exits_loop {T : Type} (env : Env T) (st : NodeState T)
    (log : LoopLog T) (id : Nat) (p : List Nat) (rest : List (Update T))
    (h : env.decode p = none) :
    networkLoop env st log (Update.appCall id p :: rest) = ⟨st, log, some .decodeFailed⟩ := by
  simp only [networkLoop, step, h]

/-- Witness for C2 amended at a concrete undecodable payload. -/
theorem decode_failure_exits_loop_witness :
    networkLoop envA (newHostState Nat 0 [1]) ⟨[], []⟩ [Update.appCall 99 [8], Update.other] =
      ⟨newHostState Nat 0 [1], ⟨[], []⟩, some .decodeFailed⟩ :=
  decode_failure_exits_loop envA (newHostState Nat 0 [1]) ⟨[], []⟩ 99 [8] [Update.other]
    (by decide)

/-- C4 counterexample: when every overlay call fails, the spawned reply loop
never breaks — for no amount of fuel does it terminate; there is no attempt
cap, no `SendExhausted`, and the loop does not terminate when every attempt
fails. -/
theorem reply_retry_unbounded_counterexample :
    ¬ ∃ fuel, (replyLoopFuel allFailOracle fuel 0).isSome = true := by
  rintro ⟨fuel, hf⟩
  rw [replyLoopFuel_allFail] at hf
  simp at hf

/-- C4 amended: the reply retry loop spawned for each `AppCall` has no
attempt cap and no inter-attempt sleep: it runs `app_call_host_reply`
attempts until the first one whose ACK and reply send both succeed, and
stops exactly at that attempt (returning no error), however late it comes. -/
theorem reply_loop_stops_at_first_success (oracle : Nat → Bool × Bool) (k fuel : Nat)
    (hk : attemptOk oracle k = true)
    (hbefore : ∀ j, j < k → attemptOk oracle j = false)
    (hfuel : k < fuel) :
    replyLoopFuel oracle fuel 0 = some k :=
  replyLoopFuel_finds oracle fuel 0 k (Nat.zero_le k) (by omega) hk
    (fun j _ hj => hbefore j hj)

/-- Witness for C4 amended: with failures until attempt 2, the loop performs
three attempts and stops at attempt 2 — beyond any fixed budget's excuse. -/
theorem reply_loop_stops_at_first_success_witness :
    replyLoopFuel lateOracle 5 0 = some 2 :=
  reply_loop_stops_at_first_success lateOracle 2 5 (by decide) (by decide) (by decide)

/-- C5 counterexample: a run from a fresh host (blob `[1]`) through one
decoded `AppCall` and one `RouteChange` that kills the cached remote route
replaces `our_route` by `[9]`, yet subkey 0 of the own rendezvous record
still holds the stale base64 value — not the current local route blob. -/
theorem route_rotation_skips_dht_counterexample :
    (networkLoop envB (newHostState Nat 0 [1]) ⟨[], []⟩
        [Update.appCall 1 [7], Update.routeChange [] [5]]).state.our_route = [9] ∧
    (networkLoop envB (newHostState Nat 0 [1]) ⟨[], []⟩
        [Update.appCall 1 [7], Update.routeChange [] [5]]).state.ownDhtValue ≠ [9] ∧
    (networkLoop envB (newHostState Nat 0 [1]) ⟨[], []⟩
        [Update.appCall 1 [7], Update.routeChange [] [5]]).err = none := by
  refine ⟨?_, ?_, ?_⟩ <;> decide

/-- C5 amended: the dispatcher never rewrites the rendezvous record — at
every state reachable from a fresh host, subkey 0 of the own DHT record
holds the base64 encoding of the INITIAL route blob, even after
route-change handling has replaced `our_route`. -/
theorem rendezvous_value_never_rewritten {T : Type} (env : Env T) (service_key : Nat)
    (blob : List Nat) (log : LoopLog T) (updates : List (Update T)) :
    (networkLoop env (newHostState T service_key blob) log updates).state.ownDhtValue
      = b64encode blob :=
  networkLoop_ownDhtValue env updates (newHostState T service_key blob) log

/-- C6 counterexample: a `RouteChange` whose `dead_routes` names any key —
in particular the node's own current route key — while `dead_remote_routes`
is empty leaves the state untouched: no local route rotation, no republish.
The dispatcher never reads `dead_routes`. -/
theorem dead_routes_ignored_counterexample :
    networkLoop envB stB ⟨[], []⟩ [Update.routeChange [5000] []] =
      ⟨stB, ⟨[], []⟩, none⟩ ∧
    stB.our_route = [1] := by
  refine ⟨?_, ?_⟩ <;> decide

/-- C6 amended: the route-change handler ignores `dead_routes` entirely
(its behaviour is identical with that list emptied); with no cached peer
route it does nothing; and when the imported key of the cached peer route
occurs in `dead_remote_routes`, it re-resolves the service route and
replaces both `our_route` and `their_route` (no removal, no DHT write). -/
theorem route_change_ignores_dead_routes {T : Type} (env : Env T) (st : NodeState T)
    (dr drr : List Nat) :
    step env st (Update.routeChange dr drr) = step env st (Update.routeChange [] drr) ∧
    (st.their_route = none → step env st (Update.routeChange dr drr) = .ok (st, ⟨[], []⟩)) ∧
    (∀ trBlob theirKey our their,
      st.their_route = some trBlob → env.importRoute trBlob = some theirKey →
      theirKey ∈ drr → env.getServiceRoute st.service_key = some (our, their) →
      step env st (Update.routeChange dr drr) =
        .ok ({ st with our_route := our, their_route := some their }, ⟨[], []⟩)) := by
  refine ⟨rfl, ?_, ?_⟩
  · intro h
    simp only [step, h]
  · intro trBlob theirKey our their h1 h2 h3 h4
    simp only [step, h1, h2,
      processDeadRemoteRoutes_resolves env theirKey our their drr st h4, if_pos h3]

/-- Witness for C6 amended: `dead_routes = [7777]` is ignored while the dead
remote key 5 triggers re-resolution to `(our [9], their [4])`. -/
theorem route_change_ignores_dead_routes_witness :
    step envB stB (Update.routeChange [7777] [5]) =
      .ok ({ stB with our_route := [9], their_route := some [4] }, ⟨[], []⟩) :=
  (route_change_ignores_dead_routes envB stB [7777] [5]).2.2 [2] 5 [9] [4]
    rfl (by decide) (by decide) rfl

end VeilidDuplex
